import Mathlib

/-!
Shallow embedding of `src/bittensor_network_switcher.py`.

The program manipulates one file, `~/.bittensor/network_config.json`.  We model
the file's on-disk state as `Option FileData`: `none` when the file does not
exist (`open` raises `FileNotFoundError`), `some FileData.invalid` when its
bytes are not valid JSON (`json.load` raises `json.JSONDecodeError`), and
`some (FileData.json v)` when its bytes parse to the JSON value `v`
(`json.dump` always writes a valid serialization, so a written file is always
in the third form).

Python's `json.load` returns `dict`/`list`/`str`/`int`/`bool`/`None` values,
modelled by `JsonValue` (numbers as `Int`; no claim involves numerics).  A
`dict` is an insertion-ordered association list with the Python update and
lookup semantics (`setKey`, `getKey`).

Each operation returns, besides its outcome, the resulting file state, the
list of strings passed to `print`, and the trace of config-file reads and
writes it performed.  `input()`'s prompt text is not part of the modelled
output; only `print` calls are.  An uncaught Python exception (for example
the `TypeError` from `config['network'] = network` when the loaded JSON value
is not a `dict`) is the `crashed` outcome; `sys.exit(code)` is `exited code`.
-/

/-- A JSON value as produced by Python's `json.load` (object members keep
insertion order; `json.load` never produces duplicate keys, but none of the
definitions below rely on that). -/
inductive JsonValue where
  | null : JsonValue
  | bool (b : Bool) : JsonValue
  | num (n : Int) : JsonValue
  | str (s : String) : JsonValue
  | arr (elems : List JsonValue) : JsonValue
  | obj (members : List (String × JsonValue)) : JsonValue

mutual

/-- Decidable equality on `JsonValue` (the derive handler does not support
nested inductives, so it is spelled out). -/
def decEqJsonValue : (a b : JsonValue) → Decidable (a = b)
  | JsonValue.null, JsonValue.null => isTrue rfl
  | JsonValue.null, JsonValue.bool _ => isFalse (fun h => JsonValue.noConfusion h)
  | JsonValue.null, JsonValue.num _ => isFalse (fun h => JsonValue.noConfusion h)
  | JsonValue.null, JsonValue.str _ => isFalse (fun h => JsonValue.noConfusion h)
  | JsonValue.null, JsonValue.arr _ => isFalse (fun h => JsonValue.noConfusion h)
  | JsonValue.null, JsonValue.obj _ => isFalse (fun h => JsonValue.noConfusion h)
  | JsonValue.bool _, JsonValue.null => isFalse (fun h => JsonValue.noConfusion h)
  | JsonValue.bool a, JsonValue.bool b =>
      if h : a = b then isTrue (congrArg JsonValue.bool h)
      else isFalse (fun hh => h (JsonValue.bool.inj hh))
  | JsonValue.bool _, JsonValue.num _ => isFalse (fun h => JsonValue.noConfusion h)
  | JsonValue.bool _, JsonValue.str _ => isFalse (fun h => JsonValue.noConfusion h)
  | JsonValue.bool _, JsonValue.arr _ => isFalse (fun h => JsonValue.noConfusion h)
  | JsonValue.bool _, JsonValue.obj _ => isFalse (fun h => JsonValue.noConfusion h)
  | JsonValue.num _, JsonValue.null => isFalse (fun h => JsonValue.noConfusion h)
  | JsonValue.num _, JsonValue.bool _ => isFalse (fun h => JsonValue.noConfusion h)
  | JsonValue.num a, JsonValue.num b =>
      if h : a = b then isTrue (congrArg JsonValue.num h)
      else isFalse (fun hh => h (JsonValue.num.inj hh))
  | JsonValue.num _, JsonValue.str _ => isFalse (fun h => JsonValue.noConfusion h)
  | JsonValue.num _, JsonValue.arr _ => isFalse (fun h => JsonValue.noConfusion h)
  | JsonValue.num _, JsonValue.obj _ => isFalse (fun h => JsonValue.noConfusion h)
  | JsonValue.str _, JsonValue.null => isFalse (fun h => JsonValue.noConfusion h)
  | JsonValue.str _, JsonValue.bool _ => isFalse (fun h => JsonValue.noConfusion h)
  | JsonValue.str _, JsonValue.num _ => isFalse (fun h => JsonValue.noConfusion h)
  | JsonValue.str a, JsonValue.str b =>
      if h : a = b then isTrue (congrArg JsonValue.str h)
      else isFalse (fun hh => h (JsonValue.str.inj hh))
  | JsonValue.str _, JsonValue.arr _ => isFalse (fun h => JsonValue.noConfusion h)
  | JsonValue.str _, JsonValue.obj _ => isFalse (fun h => JsonValue.noConfusion h)
  | JsonValue.arr _, JsonValue.null => isFalse (fun h => JsonValue.noConfusion h)
  | JsonValue.arr _, JsonValue.bool _ => isFalse (fun h => JsonValue.noConfusion h)
  | JsonValue.arr _, JsonValue.num _ => isFalse (fun h => JsonValue.noConfusion h)
  | JsonValue.arr _, JsonValue.str _ => isFalse (fun h => JsonValue.noConfusion h)
  | JsonValue.arr as, JsonValue.arr bs =>
      match decEqJsonValueList as bs with
      | isTrue h => isTrue (congrArg JsonValue.arr h)
      | isFalse h => isFalse (fun hh => h (JsonValue.arr.inj hh))
  | JsonValue.arr _, JsonValue.obj _ => isFalse (fun h => JsonValue.noConfusion h)
  | JsonValue.obj _, JsonValue.null => isFalse (fun h => JsonValue.noConfusion h)
  | JsonValue.obj _, JsonValue.bool _ => isFalse (fun h => JsonValue.noConfusion h)
  | JsonValue.obj _, JsonValue.num _ => isFalse (fun h => JsonValue.noConfusion h)
  | JsonValue.obj _, JsonValue.str _ => isFalse (fun h => JsonValue.noConfusion h)
  | JsonValue.obj _, JsonValue.arr _ => isFalse (fun h => JsonValue.noConfusion h)
  | JsonValue.obj ams, JsonValue.obj bms =>
      match decEqJsonValueMembers ams bms with
      | isTrue h => isTrue (congrArg JsonValue.obj h)
      | isFalse h => isFalse (fun hh => h (JsonValue.obj.inj hh))

/-- Decidable equality on lists of `JsonValue`. -/
def decEqJsonValueList : (a b : List JsonValue) → Decidable (a = b)
  | [], [] => isTrue rfl
  | [], _ :: _ => isFalse (fun h => List.noConfusion h)
  | _ :: _, [] => isFalse (fun h => List.noConfusion h)
  | a :: as, b :: bs =>
      match decEqJsonValue a b with
      | isFalse h1 => isFalse (fun hh => h1 (List.cons.inj hh).1)
      | isTrue h1 =>
          match decEqJsonValueList as bs with
          | isTrue h2 => isTrue (by rw [h1, h2])
          | isFalse h2 => isFalse (fun hh => h2 (List.cons.inj hh).2)

/-- Decidable equality on lists of object members. -/
def decEqJsonValueMembers : (a b : List (String × JsonValue)) → Decidable (a = b)
  | [], [] => isTrue rfl
  | [], _ :: _ => isFalse (fun h => List.noConfusion h)
  | _ :: _, [] => isFalse (fun h => List.noConfusion h)
  | (ak, av) :: as, (bk, bv) :: bs =>
      if hk : ak = bk then
        match decEqJsonValue av bv with
        | isFalse h1 =>
            isFalse (fun hh => h1 (congrArg Prod.snd (List.cons.inj hh).1))
        | isTrue h1 =>
            match decEqJsonValueMembers as bs with
            | isTrue h2 => isTrue (by rw [hk, h1, h2])
            | isFalse h2 => isFalse (fun hh => h2 (List.cons.inj hh).2)
      else isFalse (fun hh => hk (congrArg Prod.fst (List.cons.inj hh).1))

end

instance : DecidableEq JsonValue := decEqJsonValue

/-- What `open` + `json.load` see in the config file: bytes that are not valid
JSON, or bytes that parse to a JSON value. -/
inductive FileData where
  | invalid : FileData
  | json (v : JsonValue) : FileData
  deriving DecidableEq

/-- The config file's on-disk state: `none` when the file does not exist. -/
abbrev CFile := Option FileData

mutual

/-- Python `repr()` restricted to values loadable from JSON. -/
def pyRepr : JsonValue → String
  | JsonValue.null => "None"
  | JsonValue.bool true => "True"
  | JsonValue.bool false => "False"
  | JsonValue.num n => toString n
  | JsonValue.str s => "'" ++ s ++ "'"
  | JsonValue.arr elems => "[" ++ pyReprElems elems ++ "]"
  | JsonValue.obj members => "\x7b" ++ pyReprMembers members ++ "\x7d"

/-- Python `repr()` of a list's elements, comma-separated. -/
def pyReprElems : List JsonValue → String
  | [] => ""
  | [v] => pyRepr v
  | v :: rest => pyRepr v ++ ", " ++ pyReprElems rest

/-- Python `repr()` of a dict's members, comma-separated. -/
def pyReprMembers : List (String × JsonValue) → String
  | [] => ""
  | [(k, v)] => "'" ++ k ++ "': " ++ pyRepr v
  | (k, v) :: rest => "'" ++ k ++ "': " ++ pyRepr v ++ ", " ++ pyReprMembers rest
end

/-- Python `str()` of a value loaded from JSON, as used by an f-string. -/
def pyStr : JsonValue → String
  | JsonValue.str s => s
  | v => pyRepr v

/-- Python `d[k]` on a dict (first matching key; a dict has unique keys). -/
def getKey (kvs : List (String × JsonValue)) (k : String) : Option JsonValue :=
  match kvs with
  | [] => none
  | (k1, v1) :: rest => if k1 = k then some v1 else getKey rest k

/-- Python `d[k] = v` on a dict: replaces the value at `k` keeping its
position, or appends `(k, v)` when `k` is absent. -/
def setKey (kvs : List (String × JsonValue)) (k : String) (v : JsonValue) :
    List (String × JsonValue) :=
  match kvs with
  | [] => [(k, v)]
  | (k1, v1) :: rest => if k1 = k then (k, v) :: rest else (k1, v1) :: setKey rest k v

/-- A read or write of the config file, as recorded in an operation's trace. -/
inductive FileOp where
  | read : FileOp
  | write (v : JsonValue) : FileOp
  deriving DecidableEq

/-- How a single operation call ends: a normal return, `sys.exit(code)`, or an
uncaught exception. -/
inductive Outcome where
  | completed : Outcome
  | exited (code : Nat) : Outcome
  | crashed : Outcome
  deriving DecidableEq

/-- Result of one operation call: outcome, resulting config-file state, the
strings printed, and the trace of config-file reads/writes performed. -/
structure OpResult where
  outcome : Outcome
  file : CFile
  output : List String
  ops : List FileOp
  deriving DecidableEq

/-- `read_config` (source lines 17-23): return the parsed file contents, or
the default `{'network': 'Not set'}` on `FileNotFoundError` /
`json.JSONDecodeError`.  Total: both tolerated failures are caught. -/
def read_config (file : CFile) : JsonValue :=
  match file with
  | some (FileData.json v) => v
  | _ => JsonValue.obj [("network", JsonValue.str "Not set")]

/-- `write_config` (source lines 25-28): `json.dump(config, f, indent=4)`
overwrites the file with a valid serialization of `config`. -/
def write_config (config : JsonValue) : CFile :=
  some (FileData.json config)

/-- `switch_network` (source lines 30-47).  Invalid `network`: print the error
and `sys.exit(1)` before any file access.  Valid `network`: read the config;
`config['network'] = network` succeeds only when the loaded value is a dict
(otherwise Python raises `TypeError`, uncaught), then write it back and print
the confirmation. -/
def switch_network (file : CFile) (network : String) : OpResult :=
  if ¬ (network = "mainnet" ∨ network = "testnet") then
    { outcome := Outcome.exited 1
      file := file
      output := ["Error: Invalid network '" ++ network ++
        "'. Choose 'mainnet' or 'testnet'."]
      ops := [] }
  else
    match read_config file with
    | JsonValue.obj kvs =>
        let newConfig := JsonValue.obj (setKey kvs "network" (JsonValue.str network))
        { outcome := Outcome.completed
          file := write_config newConfig
          output := ["✅ Successfully set network to " ++ network,
            "Note: You may need to restart your Bittensor services to apply this change."]
          ops := [FileOp.read, FileOp.write newConfig] }
    | _ =>
        { outcome := Outcome.crashed
          file := file
          output := []
          ops := [FileOp.read] }

/-- `check_current_network` (source lines 49-53): read the config, take
`config.get('network', 'Not set')` (an `AttributeError` crash when the loaded
value is not a dict) and print it.  Never writes. -/
def check_current_network (file : CFile) : OpResult :=
  match read_config file with
  | JsonValue.obj kvs =>
      let current_network := (getKey kvs "network").getD (JsonValue.str "Not set")
      { outcome := Outcome.completed
        file := file
        output := ["Current network: " ++ pyStr current_network]
        ops := [FileOp.read] }
  | _ =>
      { outcome := Outcome.crashed
        file := file
        output := []
        ops := [FileOp.read] }

/-- Python `str.strip()` with no argument: remove leading and trailing
whitespace (the whitespace characters relevant here are ASCII). -/
def pyStrip (s : String) : String :=
  String.mk (((s.data.dropWhile Char.isWhitespace).reverse.dropWhile
    Char.isWhitespace).reverse)

/-- One event on standard input inside the interactive loop: a line returned
by `input()`, or a `KeyboardInterrupt` raised at the blocking read. -/
inductive InEvent where
  | line (s : String) : InEvent
  | interrupt : InEvent
  deriving DecidableEq

/-- How the interactive loop ends: `break` on choice 4, `break` after a caught
`KeyboardInterrupt`, termination by an uncaught `sys.exit(code)` or another
uncaught exception escaping the loop, or blocked waiting for further input
(the supplied event list is exhausted while the loop is still running). -/
inductive LoopOutcome where
  | exited : LoopOutcome
  | cancelled : LoopOutcome
  | exitedWith (code : Nat) : LoopOutcome
  | crashed : LoopOutcome
  | pending : LoopOutcome
  deriving DecidableEq

/-- Result of running the interactive loop on a list of input events. -/
structure LoopResult where
  outcome : LoopOutcome
  file : CFile
  output : List String
  ops : List FileOp
  deriving DecidableEq

/-- The `while True` loop of `interactive_mode` (source lines 63-79), driven
by a list of input events.  The whole loop body sits in a
`try/except KeyboardInterrupt`, so an interrupt at the read prints the
cancellation message and breaks; `choice = input(...).strip()` dispatches on
the stripped line; any non-`KeyboardInterrupt` exception from an action
(`sys.exit` cannot fire here since the loop only passes valid networks, but a
`TypeError`/`AttributeError` from a non-dict config can) escapes the loop. -/
def interactive_loop (file : CFile) : List InEvent → LoopResult
  | [] =>
      { outcome := LoopOutcome.pending, file := file, output := [], ops := [] }
  | InEvent.interrupt :: _ =>
      { outcome := LoopOutcome.cancelled, file := file
        output := ["\nOperation cancelled."], ops := [] }
  | InEvent.line s :: rest =>
      let choice := pyStrip s
      if choice = "1" then
        let r := switch_network file "mainnet"
        match r.outcome with
        | Outcome.completed =>
            let r2 := interactive_loop r.file rest
            { outcome := r2.outcome, file := r2.file
              output := r.output ++ r2.output, ops := r.ops ++ r2.ops }
        | Outcome.exited code =>
            { outcome := LoopOutcome.exitedWith code, file := r.file
              output := r.output, ops := r.ops }
        | Outcome.crashed =>
            { outcome := LoopOutcome.crashed, file := r.file
              output := r.output, ops := r.ops }
      else if choice = "2" then
        let r := switch_network file "testnet"
        match r.outcome with
        | Outcome.completed =>
            let r2 := interactive_loop r.file rest
            { outcome := r2.outcome, file := r2.file
              output := r.output ++ r2.output, ops := r.ops ++ r2.ops }
        | Outcome.exited code =>
            { outcome := LoopOutcome.exitedWith code, file := r.file
              output := r.output, ops := r.ops }
        | Outcome.crashed =>
            { outcome := LoopOutcome.crashed, file := r.file
              output := r.output, ops := r.ops }
      else if choice = "3" then
        let r := check_current_network file
        match r.outcome with
        | Outcome.completed =>
            let r2 := interactive_loop r.file rest
            { outcome := r2.outcome, file := r2.file
              output := r.output ++ r2.output, ops := r.ops ++ r2.ops }
        | Outcome.exited code =>
            { outcome := LoopOutcome.exitedWith code, file := r.file
              output := r.output, ops := r.ops }
        | Outcome.crashed =>
            { outcome := LoopOutcome.crashed, file := r.file
              output := r.output, ops := r.ops }
      else if choice = "4" then
        { outcome := LoopOutcome.exited, file := file, output := [], ops := [] }
      else
        let r2 := interactive_loop file rest
        { outcome := r2.outcome, file := r2.file
          output := "Invalid choice. Please try again." :: r2.output
          ops := r2.ops }

/-- The five menu lines printed at the top of `interactive_mode`
(source lines 57-61). -/
def menuHeader : List String :=
  ["🌐 Bittensor Network Switcher", "1. Switch to Mainnet", "2. Switch to Testnet",
    "3. Check Current Network", "4. Exit"]

/-- `interactive_mode` (source lines 55-79): print the menu header, then run
the input loop. -/
def interactive_mode (file : CFile) (events : List InEvent) : LoopResult :=
  let r := interactive_loop file events
  { r with output := menuHeader ++ r.output }

/-- The argparse result: `--network` (restricted by `choices` to `mainnet` /
`testnet` when it comes through the real parser) and `--check`. -/
structure Args where
  network : Option String
  check : Bool
  deriving DecidableEq

/-- The filesystem as the program sees it: whether `~/.bittensor` exists, and
the state of the config file inside it. -/
structure ProgState where
  dirExists : Bool
  configFile : CFile
  deriving DecidableEq

/-- `BittensorNetworkSwitcher.__init__` (source lines 8-15):
`os.makedirs(self.bittensor_dir, exist_ok=True)` ensures the `~/.bittensor`
directory exists; the config file itself is not touched. -/
def initSwitcher (s : ProgState) : ProgState :=
  { dirExists := true, configFile := s.configFile }

/-- How the whole process ends: `sys.exit`/normal return with a code, an
uncaught exception (non-zero exit with a traceback), or blocked on input. -/
inductive ProcOutcome where
  | exit (code : Nat) : ProcOutcome
  | crashed : ProcOutcome
  | blocked : ProcOutcome
  deriving DecidableEq

/-- Result of one whole program invocation. -/
structure MainResult where
  outcome : ProcOutcome
  state : ProgState
  output : List String
  ops : List FileOp
  deriving DecidableEq

/-- Process exit behaviour after a one-shot operation: a normal return from
`main` exits 0, `sys.exit(code)` exits with `code`, an uncaught exception is
a crash. -/
def procOutcomeOfOp : Outcome → ProcOutcome
  | Outcome.completed => ProcOutcome.exit 0
  | Outcome.exited code => ProcOutcome.exit code
  | Outcome.crashed => ProcOutcome.crashed

/-- Process exit behaviour after the interactive loop: both `break` paths
(choice 4 and caught interrupt) return normally from `main`, exiting 0. -/
def procOutcomeOfLoop : LoopOutcome → ProcOutcome
  | LoopOutcome.exited => ProcOutcome.exit 0
  | LoopOutcome.cancelled => ProcOutcome.exit 0
  | LoopOutcome.exitedWith code => ProcOutcome.exit code
  | LoopOutcome.crashed => ProcOutcome.crashed
  | LoopOutcome.pending => ProcOutcome.blocked

/-- Python truthiness of `args.network` in `if args.network:` (`None` and the
empty string are falsy; argparse's `choices` keeps the empty string out in
the real CLI). -/
def truthy : Option String → Bool
  | some s => !(s == "")
  | none => false

/-- The dispatch at the bottom of `main` (source lines 92-97), acting on the
state left by `BittensorNetworkSwitcher.__init__`. -/
def mainDispatch (s : ProgState) (args : Args) (events : List InEvent) : MainResult :=
  if truthy args.network then
    let r := switch_network s.configFile (args.network.getD "")
    { outcome := procOutcomeOfOp r.outcome
      state := { dirExists := s.dirExists, configFile := r.file }
      output := r.output, ops := r.ops }
  else if args.check then
    let r := check_current_network s.configFile
    { outcome := procOutcomeOfOp r.outcome
      state := { dirExists := s.dirExists, configFile := r.file }
      output := r.output, ops := r.ops }
  else
    let r := interactive_mode s.configFile events
    { outcome := procOutcomeOfLoop r.outcome
      state := { dirExists := s.dirExists, configFile := r.file }
      output := r.output, ops := r.ops }

/-- `main` (source lines 81-97; named `mainProgram` since Lean reserves `main`):
construct the switcher (which creates the
`~/.bittensor` directory), then dispatch on the parsed arguments. -/
def mainProgram (s : ProgState) (args : Args) (events : List InEvent) : MainResult :=
  mainDispatch (initSwitcher s) args events

/-- One invocation of the program from the shell, for reasoning about
sequences of runs against the same config file. -/
inductive Invocation where
  | switchTo (network : String) : Invocation
  | checkNet : Invocation
  | interactive (events : List InEvent) : Invocation

/-- The command line and stdin of an invocation. -/
def invocationArgs : Invocation → Args × List InEvent
  | Invocation.switchTo n => ({ network := some n, check := false }, [])
  | Invocation.checkNet => ({ network := none, check := true }, [])
  | Invocation.interactive events => ({ network := none, check := false }, events)

/-- Run a sequence of program invocations against one filesystem, collecting
the combined trace of config-file reads and writes. -/
def runSeq (s : ProgState) : List Invocation → ProgState × List FileOp
  | [] => (s, [])
  | inv :: rest =>
      let a := invocationArgs inv
      let r := mainProgram s a.1 a.2
      let rr := runSeq r.state rest
      (rr.1, r.ops ++ rr.2)

/-- Whether a trace entry is either a read or the write of a JSON object. -/
def opWritesObj : FileOp → Bool
  | FileOp.read => true
  | FileOp.write (JsonValue.obj _) => true
  | FileOp.write _ => false

/-- Looking up the key just set by a dict assignment yields the new value. -/
theorem getKey_setKey_self (kvs : List (String × JsonValue)) (k : String)
    (v : JsonValue) : getKey (setKey kvs k v) k = some v := by
  induction kvs with
  | nil => simp [setKey, getKey]
  | cons hd tl ih =>
      obtain ⟨k1, v1⟩ := hd
      by_cases h : k1 = k
      · simp [setKey, getKey, h]
      · simp [setKey, getKey, h, ih]

/-- A dict assignment leaves every other key's value unchanged. -/
theorem getKey_setKey_ne (kvs : List (String × JsonValue)) (k k2 : String)
    (v : JsonValue) (hne : k2 ≠ k) :
    getKey (setKey kvs k v) k2 = getKey kvs k2 := by
  induction kvs with
  | nil => simp [setKey, getKey, Ne.symm hne]
  | cons hd tl ih =>
      obtain ⟨k1, v1⟩ := hd
      by_cases h : k1 = k
      · subst h
        simp [setKey, getKey, Ne.symm hne]
      · simp [setKey, getKey, h, ih]

/-- Repeating the same dict assignment changes nothing further. -/
theorem setKey_setKey_same (kvs : List (String × JsonValue)) (k : String)
    (v : JsonValue) : setKey (setKey kvs k v) k v = setKey kvs k v := by
  induction kvs with
  | nil => simp [setKey]
  | cons hd tl ih =>
      obtain ⟨k1, v1⟩ := hd
      by_cases h : k1 = k
      · simp [setKey, h]
      · simp [setKey, h, ih]

/-- Assigning to a key the dict already has keeps the key list unchanged. -/
theorem map_fst_setKey (kvs : List (String × JsonValue)) (k : String)
    (v : JsonValue) (hmem : getKey kvs k ≠ none) :
    (setKey kvs k v).map Prod.fst = kvs.map Prod.fst := by
  induction kvs with
  | nil => simp [getKey] at hmem
  | cons hd tl ih =>
      obtain ⟨k1, v1⟩ := hd
      by_cases h : k1 = k
      · simp [setKey, h]
      · simp [getKey, h] at hmem
        simp [setKey, h, ih hmem]

/-- C1 fails as stated: with the config file holding valid JSON that is not an
object (here the array `[]`), `switch_network "mainnet"` does not complete —
`config['network'] = network` raises an uncaught `TypeError`. -/
theorem claim_C1_counterexample :
    ¬ ((switch_network (some (FileData.json (JsonValue.arr []))) "mainnet").outcome =
      Outcome.completed) := by
  decide

/-- C1 (amended): for every call to `switch_network` with network `mainnet` or
`testnet`, in any state where `read_config` yields a JSON object (file
missing, unparseable, or holding an object), the call completes without
exiting and immediately afterwards `read_config()` returns a config whose
`network` field equals the argument. -/
theorem claim_C1 :
    ∀ (file : CFile) (network : String),
      (network = "mainnet" ∨ network = "testnet") →
      (∃ kvs, read_config file = JsonValue.obj kvs) →
      (switch_network file network).outcome = Outcome.completed ∧
      ∃ kvs2, read_config (switch_network file network).file = JsonValue.obj kvs2 ∧
        getKey kvs2 "network" = some (JsonValue.str network) := by
  intro file network hnet hobj
  obtain ⟨kvs, hread⟩ := hobj
  unfold switch_network
  rw [if_neg (not_not_intro hnet), hread]
  exact ⟨rfl, setKey kvs "network" (JsonValue.str network), rfl,
    getKey_setKey_self kvs "network" (JsonValue.str network)⟩

/-- Witness for C1 at a missing config file and network `mainnet`. -/
theorem claim_C1_witness :
    (switch_network none "mainnet").outcome = Outcome.completed ∧
    ∃ kvs2, read_config (switch_network none "mainnet").file = JsonValue.obj kvs2 ∧
      getKey kvs2 "network" = some (JsonValue.str "mainnet") :=
  claim_C1 none "mainnet" (Or.inl rfl)
    ⟨[("network", JsonValue.str "Not set")], rfl⟩

/-- C2: for every call to `switch_network` with a network outside
`{mainnet, testnet}`, the call exits with code 1 after printing the error
message naming the invalid value, the config file is exactly as before, and
no read or write is performed (the trace is empty). -/
theorem claim_C2 :
    ∀ (file : CFile) (network : String),
      ¬ (network = "mainnet" ∨ network = "testnet") →
      switch_network file network =
        { outcome := Outcome.exited 1
          file := file
          output := ["Error: Invalid network '" ++ network ++
            "'. Choose 'mainnet' or 'testnet'."]
          ops := [] } := by
  intro file network h
  unfold switch_network
  rw [if_pos h]

/-- Witness for C2 at the invalid network `invalidnet`. -/
theorem claim_C2_witness :
    switch_network none "invalidnet" =
      { outcome := Outcome.exited 1
        file := none
        output := ["Error: Invalid network 'invalidnet'. Choose 'mainnet' or 'testnet'."]
        ops := [] } :=
  (claim_C2 none "invalidnet" (by decide)).trans (by decide)

/-- C3: for a missing config file and for any file contents that are not
valid JSON, `read_config` returns the default object
`{'network': 'Not set'}`; being a total Lean function over all such states,
it raises nothing to its caller. -/
theorem claim_C3 :
    ∀ (file : CFile), (file = none ∨ file = some FileData.invalid) →
      read_config file = JsonValue.obj [("network", JsonValue.str "Not set")] := by
  rintro file (rfl | rfl) <;> rfl

/-- Witness for C3 at a missing config file. -/
theorem claim_C3_witness :
    read_config none = JsonValue.obj [("network", JsonValue.str "Not set")] :=
  claim_C3 none (Or.inl rfl)

/-- C4: when the config file holds a JSON object that has a `network` key plus
arbitrary other keys, a valid switch writes back exactly the object with
`network` reassigned: every other key keeps its original value, the `network`
key now holds the requested network, and the key list is unchanged. -/
theorem claim_C4 :
    ∀ (kvs : List (String × JsonValue)) (network extra : String),
      (network = "mainnet" ∨ network = "testnet") →
      getKey kvs "network" ≠ none →
      extra ≠ "network" →
      (switch_network (some (FileData.json (JsonValue.obj kvs))) network).file =
        some (FileData.json (JsonValue.obj (setKey kvs "network" (JsonValue.str network)))) ∧
      getKey (setKey kvs "network" (JsonValue.str network)) extra = getKey kvs extra ∧
      getKey (setKey kvs "network" (JsonValue.str network)) "network" =
        some (JsonValue.str network) ∧
      (setKey kvs "network" (JsonValue.str network)).map Prod.fst = kvs.map Prod.fst := by
  intro kvs network extra hnet hmem hextra
  refine ⟨?_, getKey_setKey_ne kvs "network" extra _ hextra,
    getKey_setKey_self kvs "network" _, map_fst_setKey kvs "network" _ hmem⟩
  unfold switch_network
  rw [if_neg (not_not_intro hnet)]
  rfl

/-- Witness for C4 at `{"network": "mainnet", "extra": "keepme"}` switched to
`testnet`. -/
theorem claim_C4_witness :
    (switch_network (some (FileData.json (JsonValue.obj
        [("network", JsonValue.str "mainnet"), ("extra", JsonValue.str "keepme")])))
        "testnet").file =
      some (FileData.json (JsonValue.obj (setKey
        [("network", JsonValue.str "mainnet"), ("extra", JsonValue.str "keepme")]
        "network" (JsonValue.str "testnet")))) ∧
    getKey (setKey
        [("network", JsonValue.str "mainnet"), ("extra", JsonValue.str "keepme")]
        "network" (JsonValue.str "testnet")) "extra" =
      getKey [("network", JsonValue.str "mainnet"), ("extra", JsonValue.str "keepme")]
        "extra" ∧
    getKey (setKey
        [("network", JsonValue.str "mainnet"), ("extra", JsonValue.str "keepme")]
        "network" (JsonValue.str "testnet")) "network" =
      some (JsonValue.str "testnet") ∧
    (setKey [("network", JsonValue.str "mainnet"), ("extra", JsonValue.str "keepme")]
        "network" (JsonValue.str "testnet")).map Prod.fst =
      (([("network", JsonValue.str "mainnet"),
        ("extra", JsonValue.str "keepme")] : List (String × JsonValue))).map Prod.fst :=
  claim_C4 [("network", JsonValue.str "mainnet"), ("extra", JsonValue.str "keepme")]
    "testnet" "extra" (Or.inr rfl) (by decide) (by decide)

/-- C5: for every starting state of the config file, running
`switch_network` twice with the same valid network leaves the on-disk file in
the same state as running it once. -/
theorem claim_C5 :
    ∀ (file : CFile) (network : String),
      (network = "mainnet" ∨ network = "testnet") →
      (switch_network (switch_network file network).file network).file =
        (switch_network file network).file := by
  intro file network hnet
  have hnn := not_not_intro hnet
  by_cases hobj : ∃ kvs, read_config file = JsonValue.obj kvs
  · obtain ⟨kvs, hr⟩ := hobj
    have h1 : (switch_network file network).file =
        some (FileData.json (JsonValue.obj (setKey kvs "network" (JsonValue.str network)))) := by
      unfold switch_network
      rw [if_neg hnn, hr]
      rfl
    rw [h1]
    unfold switch_network
    rw [if_neg hnn]
    simp [read_config, write_config, setKey_setKey_same]
  · have h1 : (switch_network file network).file = file := by
      unfold switch_network
      rw [if_neg hnn]
      cases hr : read_config file
      case obj kvs => exact absurd ⟨kvs, hr⟩ hobj
      all_goals rfl
    rw [h1]
    exact h1

/-- Witness for C5 at a missing config file and network `mainnet`. -/
theorem claim_C5_witness :
    (switch_network (switch_network none "mainnet").file "mainnet").file =
      (switch_network none "mainnet").file :=
  claim_C5 none "mainnet" (Or.inl rfl)

/-- C6: with no config file on disk, `check_current_network` prints exactly
`Current network: Not set`, performs only a read, and leaves the config file
absent; likewise a whole `--check` invocation only creates the directory,
never the file. -/
theorem claim_C6 :
    ∀ (d : Bool),
      check_current_network none =
        { outcome := Outcome.completed
          file := none
          output := ["Current network: Not set"]
          ops := [FileOp.read] } ∧
      mainProgram { dirExists := d, configFile := none }
          { network := none, check := true } [] =
        { outcome := ProcOutcome.exit 0
          state := { dirExists := true, configFile := none }
          output := ["Current network: Not set"]
          ops := [FileOp.read] } := by
  intro d
  exact ⟨rfl, rfl⟩

/-- The invariant carried along executions for C7: every recorded trace entry
that is a write wrote a JSON object, and the resulting file is either exactly
the starting file or holds a JSON object. -/
def goodStep (file f2 : CFile) (ops : List FileOp) : Prop :=
  ops.all opWritesObj = true ∧
  (f2 = file ∨ ∃ ms, f2 = some (FileData.json (JsonValue.obj ms)))

/-- Chaining two steps preserves the C7 invariant. -/
theorem goodStep_trans {a b c : CFile} {ops1 ops2 : List FileOp}
    (h1 : goodStep a b ops1) (h2 : goodStep b c ops2) :
    goodStep a c (ops1 ++ ops2) := by
  obtain ⟨w1, f1⟩ := h1
  obtain ⟨w2, f2⟩ := h2
  refine ⟨by simp [List.all_append, w1, w2], ?_⟩
  rcases f2 with rfl | hobj
  · exact f1
  · exact Or.inr hobj

/-- One `switch_network` call satisfies the C7 invariant. -/
theorem switch_goodStep (file : CFile) (network : String) :
    goodStep file (switch_network file network).file
      (switch_network file network).ops := by
  unfold switch_network
  by_cases h : ¬ (network = "mainnet" ∨ network = "testnet")
  · rw [if_pos h]
    exact ⟨rfl, Or.inl rfl⟩
  · rw [if_neg h]
    cases hr : read_config file with
    | null => exact ⟨rfl, Or.inl rfl⟩
    | bool b => exact ⟨rfl, Or.inl rfl⟩
    | num n => exact ⟨rfl, Or.inl rfl⟩
    | str s => exact ⟨rfl, Or.inl rfl⟩
    | arr elems => exact ⟨rfl, Or.inl rfl⟩
    | obj kvs =>
        exact ⟨by simp [opWritesObj],
          Or.inr ⟨setKey kvs "network" (JsonValue.str network), rfl⟩⟩

/-- One `check_current_network` call satisfies the C7 invariant. -/
theorem check_goodStep (file : CFile) :
    goodStep file (check_current_network file).file
      (check_current_network file).ops := by
  unfold check_current_network
  cases hr : read_config file
  all_goals exact ⟨rfl, Or.inl rfl⟩

/-- The interactive loop satisfies the C7 invariant. -/
theorem loop_goodStep :
    ∀ (events : List InEvent) (file : CFile),
      goodStep file (interactive_loop file events).file
        (interactive_loop file events).ops := by
  intro events
  induction events with
  | nil => intro file; exact ⟨rfl, Or.inl rfl⟩
  | cons e rest ih =>
      intro file
      cases e with
      | interrupt => exact ⟨rfl, Or.inl rfl⟩
      | line s =>
          simp only [interactive_loop]
          split
          · split
            · exact goodStep_trans (switch_goodStep file "mainnet") (ih _)
            · exact switch_goodStep file "mainnet"
            · exact switch_goodStep file "mainnet"
          · split
            · split
              · exact goodStep_trans (switch_goodStep file "testnet") (ih _)
              · exact switch_goodStep file "testnet"
              · exact switch_goodStep file "testnet"
            · split
              · split
                · exact goodStep_trans (check_goodStep file) (ih _)
                · exact check_goodStep file
                · exact check_goodStep file
              · split
                · exact ⟨rfl, Or.inl rfl⟩
                · exact ih file

/-- A whole program invocation satisfies the C7 invariant. -/
theorem mainProgram_goodStep (s : ProgState) (args : Args)
    (events : List InEvent) :
    goodStep s.configFile (mainProgram s args events).state.configFile
      (mainProgram s args events).ops := by
  unfold mainProgram mainDispatch initSwitcher
  split
  · exact switch_goodStep _ _
  · split
    · exact check_goodStep _
    · exact loop_goodStep events _

/-- A sequence of program invocations satisfies the C7 invariant. -/
theorem runSeq_goodStep :
    ∀ (invs : List Invocation) (s : ProgState),
      goodStep s.configFile (runSeq s invs).1.configFile (runSeq s invs).2 := by
  intro invs
  induction invs with
  | nil => intro s; exact ⟨rfl, Or.inl rfl⟩
  | cons inv rest ih =>
      intro s
      exact goodStep_trans (mainProgram_goodStep s _ _) (ih _)

/-- C7: along any sequence of program invocations, every write recorded in
the combined trace writes a single JSON object; consequently the final
on-disk config file is either byte-for-byte the initial content (the program
never wrote it) or a single JSON object. -/
theorem claim_C7 :
    ∀ (s : ProgState) (invs : List Invocation),
      ((runSeq s invs).2.all opWritesObj = true) ∧
      ((runSeq s invs).1.configFile = s.configFile ∨
        ∃ ms, (runSeq s invs).1.configFile =
          some (FileData.json (JsonValue.obj ms))) :=
  fun s invs => runSeq_goodStep invs s

/-- C8 fails as stated: the raw input line `" 1"` is outside
`{"1","2","3","4"}`, yet the loop strips it and performs the switch to
mainnet (writing the config file) instead of printing the invalid-choice
message and staying in the menu. -/
theorem claim_C8_counterexample :
    (interactive_loop none [InEvent.line " 1"]).file =
      some (FileData.json (JsonValue.obj [("network", JsonValue.str "mainnet")])) ∧
    ¬ (" 1" = "1" ∨ " 1" = "2" ∨ " 1" = "3" ∨ " 1" = "4") ∧
    "Invalid choice. Please try again." ∉
      (interactive_loop none [InEvent.line " 1"]).output := by
  decide

/-- C8 (amended): in the interactive loop, every input line whose
whitespace-stripped content is outside `{"1","2","3","4"}` prints the
invalid-choice message and stays in the menu — the loop continues on the
same file state, performing no switch, check or exit for that line; a line
whose stripped content is `"4"` exits the loop. -/
theorem claim_C8 :
    ∀ (file : CFile) (s : String) (rest : List InEvent),
      (¬ (pyStrip s = "1" ∨ pyStrip s = "2" ∨ pyStrip s = "3" ∨ pyStrip s = "4") →
        interactive_loop file (InEvent.line s :: rest) =
          { outcome := (interactive_loop file rest).outcome
            file := (interactive_loop file rest).file
            output := "Invalid choice. Please try again." ::
              (interactive_loop file rest).output
            ops := (interactive_loop file rest).ops }) ∧
      (pyStrip s = "4" →
        interactive_loop file (InEvent.line s :: rest) =
          { outcome := LoopOutcome.exited, file := file, output := [], ops := [] }) := by
  intro file s rest
  constructor
  · intro h
    push_neg at h
    obtain ⟨h1, h2, h3, h4⟩ := h
    simp only [interactive_loop]
    rw [if_neg h1, if_neg h2, if_neg h3, if_neg h4]
  · intro h4
    have h1 : ¬ (pyStrip s = "1") := by rw [h4]; decide
    have h2 : ¬ (pyStrip s = "2") := by rw [h4]; decide
    have h3 : ¬ (pyStrip s = "3") := by rw [h4]; decide
    simp only [interactive_loop]
    rw [if_neg h1, if_neg h2, if_neg h3, if_pos h4]

/-- Witness for C8: the line `"x"` keeps the menu looping with the
invalid-choice message, and the line `"4"` exits the loop. -/
theorem claim_C8_witness :
    interactive_loop none [InEvent.line "x"] =
      { outcome := (interactive_loop none ([] : List InEvent)).outcome
        file := (interactive_loop none ([] : List InEvent)).file
        output := "Invalid choice. Please try again." ::
          (interactive_loop none ([] : List InEvent)).output
        ops := (interactive_loop none ([] : List InEvent)).ops } ∧
    interactive_loop none [InEvent.line "4"] =
      { outcome := LoopOutcome.exited, file := none, output := [], ops := [] } :=
  ⟨(claim_C8 none "x" []).1 (by decide), (claim_C8 none "4" []).2 (by decide)⟩

/-- While the loop is still awaiting input after `events`, a
`KeyboardInterrupt` at the next read is caught: the loop ends `cancelled`
and the cancellation message is printed. -/
theorem loop_interrupt :
    ∀ (events : List InEvent) (file : CFile),
      (interactive_loop file events).outcome = LoopOutcome.pending →
      (interactive_loop file (events ++ [InEvent.interrupt])).outcome =
        LoopOutcome.cancelled ∧
      "\nOperation cancelled." ∈
        (interactive_loop file (events ++ [InEvent.interrupt])).output := by
  intro events
  induction events with
  | nil =>
      intro file _
      exact ⟨rfl, by simp [interactive_loop]⟩
  | cons e rest ih =>
      intro file hp
      cases e with
      | interrupt => exact absurd hp (by simp [interactive_loop])
      | line s =>
          simp only [List.cons_append]
          simp only [interactive_loop] at hp ⊢
          by_cases h1 : pyStrip s = "1"
          · rw [if_pos h1] at hp ⊢
            cases hro : (switch_network file "mainnet").outcome with
            | completed =>
                rw [hro] at hp
                obtain ⟨ho, hm⟩ := ih (switch_network file "mainnet").file hp
                exact ⟨ho, List.mem_append_right _ hm⟩
            | exited code =>
                rw [hro] at hp
                exact absurd hp (fun hh => LoopOutcome.noConfusion hh)
            | crashed =>
                rw [hro] at hp
                exact absurd hp (fun hh => LoopOutcome.noConfusion hh)
          · rw [if_neg h1] at hp ⊢
            by_cases h2 : pyStrip s = "2"
            · rw [if_pos h2] at hp ⊢
              cases hro : (switch_network file "testnet").outcome with
              | completed =>
                  rw [hro] at hp
                  obtain ⟨ho, hm⟩ := ih (switch_network file "testnet").file hp
                  exact ⟨ho, List.mem_append_right _ hm⟩
              | exited code =>
                  rw [hro] at hp
                  exact absurd hp (fun hh => LoopOutcome.noConfusion hh)
              | crashed =>
                  rw [hro] at hp
                  exact absurd hp (fun hh => LoopOutcome.noConfusion hh)
            · rw [if_neg h2] at hp ⊢
              by_cases h3 : pyStrip s = "3"
              · rw [if_pos h3] at hp ⊢
                cases hro : (check_current_network file).outcome with
                | completed =>
                    rw [hro] at hp
                    obtain ⟨ho, hm⟩ := ih (check_current_network file).file hp
                    exact ⟨ho, List.mem_append_right _ hm⟩
                | exited code =>
                    rw [hro] at hp
                    exact absurd hp (fun hh => LoopOutcome.noConfusion hh)
                | crashed =>
                    rw [hro] at hp
                    exact absurd hp (fun hh => LoopOutcome.noConfusion hh)
              · rw [if_neg h3] at hp ⊢
                by_cases h4 : pyStrip s = "4"
                · rw [if_pos h4] at hp
                  exact absurd hp (fun hh => LoopOutcome.noConfusion hh)
                · rw [if_neg h4] at hp ⊢
                  obtain ⟨ho, hm⟩ := ih file hp
                  exact ⟨ho, List.mem_cons_of_mem _ hm⟩

/-- C9: at every reachable point where the interactive loop is awaiting
input, a `KeyboardInterrupt` raised there is caught: the program prints the
cancellation message, leaves the loop, and the process terminates normally
with exit code 0 rather than with a fatal error. -/
theorem claim_C9 :
    ∀ (s : ProgState) (events : List InEvent),
      (interactive_loop s.configFile events).outcome = LoopOutcome.pending →
      (mainProgram s { network := none, check := false }
          (events ++ [InEvent.interrupt])).outcome = ProcOutcome.exit 0 ∧
      "\nOperation cancelled." ∈
        (mainProgram s { network := none, check := false }
          (events ++ [InEvent.interrupt])).output := by
  intro s events hp
  obtain ⟨ho, hm⟩ := loop_interrupt events s.configFile hp
  constructor
  · show procOutcomeOfLoop
      (interactive_mode s.configFile (events ++ [InEvent.interrupt])).outcome = _
    simp [interactive_mode, ho, procOutcomeOfLoop]
  · show "\nOperation cancelled." ∈
      (interactive_mode s.configFile (events ++ [InEvent.interrupt])).output
    simp [interactive_mode]
    right
    exact hm

/-- Witness for C9: an interrupt at the very first read of a fresh
interactive session. -/
theorem claim_C9_witness :
    (mainProgram { dirExists := false, configFile := none }
        { network := none, check := false }
        (([] : List InEvent) ++ [InEvent.interrupt])).outcome = ProcOutcome.exit 0 ∧
    "\nOperation cancelled." ∈
      (mainProgram { dirExists := false, configFile := none }
        { network := none, check := false }
        (([] : List InEvent) ++ [InEvent.interrupt])).output :=
  claim_C9 { dirExists := false, configFile := none } [] rfl

/-- C10: on every invocation — a `--network` switch, a `--check`, or the
interactive menu — constructing the switcher first creates the
`~/.bittensor` directory (if absent) while leaving the config file exactly
as it was, and the dispatched operation runs on that post-init state; the
directory therefore exists before any load/save/switch/check, and still
exists when the invocation ends. -/
theorem claim_C10 :
    ∀ (s : ProgState) (args : Args) (events : List InEvent),
      (initSwitcher s).dirExists = true ∧
      (initSwitcher s).configFile = s.configFile ∧
      mainProgram s args events = mainDispatch (initSwitcher s) args events ∧
      (mainProgram s args events).state.dirExists = true := by
  intro s args events
  refine ⟨rfl, rfl, rfl, ?_⟩
  unfold mainProgram mainDispatch initSwitcher
  split
  · rfl
  · split
    · rfl
    · rfl
